import Mathlib

/-!
Shallow embedding of the `mapreader` Go package (github.com/manterfield/go-mapreader).

The package reads typed values out of a decoded JSON-like tree
(`map[string]any`) using a dotted lookup path.  We embed:

* the dynamic value universe (`Val`) — the shapes a decoded tree node can take;
* the closed error taxonomy (`Err`) mirroring the six `Err...` sentinels;
* results (`Res`) of a Go call: a value, a returned error, or an
  unrecoverable runtime fault (Go panic, e.g. out-of-range slice indexing);
* the path walk of `GetErr` (function `walk`, entry point `GetErr`),
  including its bounds check against `len(source)` — the length of the
  top-level map — exactly as the source writes it;
* the coercion helpers `asNumberType` / `convertNumber` / `asSliceType` /
  `asMapType`, the typed wrappers (`StrErr`, `IntErr`, `Float64Err`,
  `BoolErr`, `BytesErr`, `SliceErr`, `MapErr`, `NumberErr`) and the
  error-dropping default variants (the `withoutError` composition).

Go numeric values are modelled as dyadic rationals (`Dy`, the exact value
space of Go's integer and binary floating-point types) tagged with their Go
kind; Go's native numeric conversions are modelled by `goConv` (truncation
plus two's-complement wrap for the integer kinds, round-to-nearest-even
onto the 53/24-bit significand grid for the float kinds; exponent-range
overflow and NaN/Inf are outside the model).
-/

/-- The numeric kinds supported by `asNumberType` in the source (its type
switch enumerates exactly these twelve cases). -/
inductive NumKind where
  | float64 | float32
  | int | int8 | int16 | int32 | int64
  | uint | uint8 | uint16 | uint32 | uint64
deriving DecidableEq, Repr

/-- A dyadic rational `m * 2 ^ e`: the exact value space inhabited by every
Go numeric value (integers of any width and finite binary floats).  The
canonical form produced by `Dy.norm` has `m` odd, or `m = 0` and `e = 0`. -/
structure Dy where
  m : ℤ
  e : ℤ
deriving DecidableEq, Repr

/-- Strip factors of two from the mantissa (fuel-driven so that it is
structurally recursive and reduces inside the kernel). -/
def normAux : ℕ → ℤ → ℤ → Dy
  | 0, m, e => ⟨m, e⟩
  | fuel + 1, m, e =>
    if m % 2 = 0 then normAux fuel (m / 2) (e + 1) else ⟨m, e⟩

/-- Canonical form of a dyadic rational: odd mantissa, or `⟨0, 0⟩`. -/
def Dy.norm (d : Dy) : Dy :=
  if d.m = 0 then ⟨0, 0⟩ else normAux d.m.natAbs d.m d.e

/-- Equality of the denoted values (Go `==` on numeric values). -/
def Dy.veq (a b : Dy) : Bool := a.norm = b.norm

/-- The dyadic rational denoting an integer. -/
def Dy.ofInt (n : ℤ) : Dy := Dy.norm ⟨n, 0⟩

/-- Truncation toward zero, as Go's float-to-integer conversion truncates. -/
def Dy.trunc (d : Dy) : ℤ :=
  if 0 ≤ d.e then d.m * 2 ^ d.e.toNat else Int.tdiv d.m (2 ^ (-d.e).toNat)

/-- Reduce an integer into the range of a `w`-bit two's-complement signed
integer, as Go integer conversions do. -/
def wrapSigned (w : ℕ) (n : ℤ) : ℤ := (n + 2 ^ (w - 1)) % 2 ^ w - 2 ^ (w - 1)

/-- Reduce an integer into the range of a `w`-bit unsigned integer. -/
def wrapUnsigned (w : ℕ) (n : ℤ) : ℤ := n % 2 ^ w

/-- Number of binary digits of `n` (fuel-driven binary recursion). -/
def bitLenAux : ℕ → ℕ → ℕ
  | 0, _ => 0
  | fuel + 1, n => if n = 0 then 0 else bitLenAux fuel (n / 2) + 1

/-- Number of binary digits of `n`. -/
def bitLen (n : ℕ) : ℕ := bitLenAux n n

/-- Drop the low `s` bits of the magnitude of `m`, rounding to nearest with
ties to even — the IEEE-754 rounding step. -/
def shiftRNE (m : ℤ) (s : ℕ) : ℤ :=
  let a := m.natAbs
  let hi := a / 2 ^ s
  let low := a % 2 ^ s
  let half := 2 ^ (s - 1)
  let r : ℕ :=
    if low < half then hi
    else if half < low then hi + 1
    else if hi % 2 = 0 then hi else hi + 1
  if m < 0 then -(r : ℤ) else (r : ℤ)

/-- Round a dyadic rational onto the grid of binary floating-point numbers
with a `p`-bit significand (round to nearest, ties to even).  Models Go's
conversion into `float64` (`p = 53`) and `float32` (`p = 24`); exponent
overflow/underflow and non-finite values are outside the model. -/
def roundFloat (p : ℕ) (d : Dy) : Dy :=
  let n := d.norm
  let len := bitLen n.m.natAbs
  if len ≤ p then n
  else Dy.norm ⟨shiftRNE n.m (len - p), n.e + (len - p)⟩

/-- Go's native numeric conversion `K(x)` for each supported kind `K`,
acting on the dyadic carried value. -/
def goConv (k : NumKind) (d : Dy) : Dy :=
  match k with
  | .float64 => roundFloat 53 d
  | .float32 => roundFloat 24 d
  | .int => Dy.ofInt (wrapSigned 64 d.trunc)
  | .int8 => Dy.ofInt (wrapSigned 8 d.trunc)
  | .int16 => Dy.ofInt (wrapSigned 16 d.trunc)
  | .int32 => Dy.ofInt (wrapSigned 32 d.trunc)
  | .int64 => Dy.ofInt (wrapSigned 64 d.trunc)
  | .uint => Dy.ofInt (wrapUnsigned 64 d.trunc)
  | .uint8 => Dy.ofInt (wrapUnsigned 8 d.trunc)
  | .uint16 => Dy.ofInt (wrapUnsigned 16 d.trunc)
  | .uint32 => Dy.ofInt (wrapUnsigned 32 d.trunc)
  | .uint64 => Dy.ofInt (wrapUnsigned 64 d.trunc)

example : goConv .int ⟨1, 0⟩ = ⟨1, 0⟩ := by decide
example : goConv .float64 ⟨1, 0⟩ = ⟨1, 0⟩ := by decide
example : goConv .int ⟨3, -1⟩ = ⟨1, 0⟩ := by decide
example : goConv .float64 ⟨3, -1⟩ = ⟨3, -1⟩ := by decide
example : goConv .int8 ⟨300, 0⟩ = ⟨11, 2⟩ := by decide
example : Dy.veq ⟨11, 2⟩ ⟨44, 0⟩ = true := by decide
example : goConv .float64 ⟨2 ^ 60 + 1, 0⟩ = ⟨1, 60⟩ := by decide
example : goConv .float32 ⟨2 ^ 60 + 1, 0⟩ = ⟨1, 60⟩ := by decide

/-- A dynamic tree node: the dynamic types the walk in `GetErr`
distinguishes (`map[string]any`, `[]any`, and the scalar leaves a decoded
tree or a caller can put there).  `vnull` is the nil interface value
(JSON `null`). -/
inductive Val where
  | vmap : List (String × Val) → Val
  | vslice : List Val → Val
  | vstr : String → Val
  | vbool : Bool → Val
  | vnum : NumKind → Dy → Val
  | vbytes : List UInt8 → Val
  | vnull : Val

/-- The closed error taxonomy: the six `errors.New` sentinels of the
package, with the context each `fmt.Errorf` call site attaches. -/
inductive Err where
  | endOfNestedStructures (lastKey : String)
  | indexOutOfBounds (idx : ℤ) (len : ℕ)
  | keyNotFound (key : String)
  | nonIntegerSliceAccess (lookup : String)
  | unableToConvert
  | unexpectedType
deriving DecidableEq, Repr

/-- Outcome of a Go call: a returned value, a returned error (every error
return in the source pairs the error with the zero value of the result
type), or an unrecoverable runtime fault (Go panic). -/
inductive Res (α : Type) where
  | ok : α → Res α
  | err : Err → Res α
  | fault : Res α
deriving DecidableEq, Repr

/-- Sequencing of Go calls that short-circuit on a returned error
(`if err != nil { return nil, err }`); a fault propagates. -/
def Res.bind {α β : Type} : Res α → (α → Res β) → Res β
  | .ok v, f => f v
  | .err e, _ => .err e
  | .fault, _ => .fault

/-- Go `strconv.Atoi`: optional single leading sign, then one or more ASCII
digits, value within the 64-bit `int` range; anything else is an error
(`none` here). -/
def goAtoi (s : String) : Option ℤ :=
  let p : ℤ × List Char :=
    match s.data with
    | '+' :: rest => (1, rest)
    | '-' :: rest => (-1, rest)
    | cs => (1, cs)
  if p.2 = [] then none
  else if p.2.all (·.isDigit) then
    let n : ℕ := p.2.foldl (fun acc c => acc * 10 + (c.toNat - '0'.toNat)) 0
    let v : ℤ := p.1 * n
    if v < -(2 ^ 63) ∨ 2 ^ 63 - 1 < v then none else some v
  else none

/-- Go `strings.Split(path, ".")`: split on every dot, keeping empty
pieces; the result always has at least one element. -/
def goSplit (s : String) : List String :=
  go s.data []
where
  go : List Char → List Char → List String
    | [], acc => [String.mk acc.reverse]
    | c :: rest, acc =>
      if c = '.' then String.mk acc.reverse :: go rest []
      else go rest (c :: acc)

example : goSplit "a.0.b" = ["a", "0", "b"] := by decide
example : goSplit "a..b" = ["a", "", "b"] := by decide
example : goSplit "" = [""] := by decide
example : goAtoi "12" = some 12 := by decide
example : goAtoi "-3" = some (-3) := by decide
example : goAtoi "" = none := by decide
example : goAtoi "1x" = none := by decide

/-- The closed universe of result types `T` the claims instantiate the
generic functions at: `any`, the exact-match scalars, `[]byte`, the numeric
kinds, `[]any` and `map[string]any`. -/
inductive GoType where
  | any
  | str
  | bool
  | bytes
  | num (k : NumKind)
  | sliceAny
  | mapStrAny
deriving DecidableEq, Repr

/-- The Lean type of a Go value of type `t` (the payload a successful type
assertion to `t` yields). -/
def interp : GoType → Type
  | .any => Val
  | .str => String
  | .bool => Bool
  | .bytes => List UInt8
  | .num _ => Dy
  | .sliceAny => List Val
  | .mapStrAny => List (String × Val)

/-- Go type assertion `v.(T)` under comma-ok: `some` of the carried payload
when dynamic and asserted type agree, `none` otherwise.  An assertion on
the nil interface value fails for every `T`, including `any`. -/
def toTyped : (t : GoType) → Val → Option (interp t)
  | .any, .vnull => none
  | .any, v => some v
  | .str, .vstr s => some s
  | .bool, .vbool b => some b
  | .bytes, .vbytes b => some b
  | .num k, .vnum k' d => if k = k' then some d else none
  | .sliceAny, .vslice l => some l
  | .mapStrAny, .vmap m => some m
  | _, _ => none

/-- The Go zero value of type `t` (`var nilResult T`). -/
def zeroVal : (t : GoType) → interp t
  | .any => .vnull
  | .str => ""
  | .bool => false
  | .bytes => []
  | .num _ => ⟨0, 0⟩
  | .sliceAny => []
  | .mapStrAny => []

/-- Terminal step of `GetErr`: `result, ok := current.(T)`; on failure the
zero value is returned together with `ErrUnexpectedType`. -/
def finalAssert (t : GoType) (v : Val) : Res (interp t) :=
  match toTyped t v with
  | some r => .ok r
  | none => .err .unexpectedType

/-- The loop of `GetErr`, one call per path segment.  `srcLen` is
`len(source)`, the size of the top-level map: the source's sequence bounds
check reads `if i < 0 || i > len(source)-1`, comparing the parsed index
against the *top-level* length, and then executes `c[i]` — which is an
out-of-range runtime fault whenever `i` passes that check but is not below
the current slice's own length. -/
def walk (t : GoType) (srcLen : ℕ) : Val → List String → ℕ → ℕ → Res (interp t)
  | _, [], _, _ => .ok (zeroVal t)
  | current, k :: rest, i, depth =>
    match current with
    | .vmap m =>
      match m.lookup k with
      | none => .err (.keyNotFound k)
      | some v =>
        if i = depth then finalAssert t v
        else walk t srcLen v rest (i + 1) depth
    | .vslice l =>
      match goAtoi k with
      | none => .err (.nonIntegerSliceAccess k)
      | some idx =>
        if idx < 0 ∨ (srcLen : ℤ) - 1 < idx then .err (.indexOutOfBounds idx srcLen)
        else if h : idx.toNat < l.length then
          if i = depth then finalAssert t (l.get ⟨idx.toNat, h⟩)
          else walk t srcLen (l.get ⟨idx.toNat, h⟩) rest (i + 1) depth
        else .fault
    | _ =>
      if i = depth then finalAssert t current
      else .err (.endOfNestedStructures k)

/-- `GetErr[T](source, path)`: split the path on dots and walk from the
top-level map; `depth` is the index of the terminal segment. -/
def GetErr (t : GoType) (source : List (String × Val)) (path : String) : Res (interp t) :=
  let keys := goSplit path
  walk t source.length (.vmap source) keys 0 (keys.length - 1)

example : GetErr .str [("a", .vstr "a_val")] "a" = .ok "a_val" := rfl
example : GetErr .str [("a", .vmap [("b", .vstr "b_val")])] "a.b" = .ok "b_val" := rfl
example : GetErr .str [("a", .vstr "v")] "nosuchkey" = .err (.keyNotFound "nosuchkey") := rfl
example : GetErr .str [("a", .vmap [("2", .vstr "2_val")])] "a.2" = .ok "2_val" := rfl
example : GetErr .str [("a", .vslice [.vstr "arrvalue"])] "a.0" = .ok "arrvalue" := rfl
example : GetErr .str [("a", .vslice [.vstr "x"])] "a.b" = .err (.nonIntegerSliceAccess "b") := rfl
example : GetErr .str [("a", .vslice [.vstr "x"])] "a.1" = .err (.indexOutOfBounds 1 1) := rfl
example : GetErr .str [("a", .vstr "b")] "a.b.c" = .err (.endOfNestedStructures "b") := rfl
example : GetErr .str [("a", .vnum .float64 ⟨42, 0⟩)] "a" = .err .unexpectedType := rfl
example : GetErr .any [("a", .vnull)] "a" = .err .unexpectedType := rfl

/-- `convertNumber[R, I](in)`: convert to the requested kind, convert back,
and accept only if the round trip reproduces the input value
(`if converted := R(in); I(converted) == in`). -/
def convertNumber (target orig : NumKind) (d : Dy) : Res Dy :=
  let converted := goConv target d
  if Dy.veq (goConv orig converted) d then .ok converted
  else .err .unableToConvert

/-- `asNumberType[R](in)`: type-switch over the twelve supported numeric
dynamic types, converting via `convertNumber`; anything else is
`ErrUnexpectedType`. -/
def asNumberType (target : NumKind) : Val → Res Dy
  | .vnum k d => convertNumber target k d
  | _ => .err .unexpectedType

/-- `asSliceType[I](in)`: assert each element to the target type, aborting
with `ErrUnableToConvert` (and a nil result) at the first failure. -/
def asSliceType (e : GoType) : List Val → Res (List (interp e))
  | [] => .ok []
  | v :: rest =>
    match toTyped e v with
    | none => .err .unableToConvert
    | some x =>
      match asSliceType e rest with
      | .ok r => .ok (x :: r)
      | .err er => .err er
      | .fault => .fault

/-- `asMapType[R](in)`: assert each value of the map to the target type,
aborting with `ErrUnableToConvert` (and a nil result) at the first
failure. -/
def asMapType (e : GoType) : List (String × Val) → Res (List (String × interp e))
  | [] => .ok []
  | (k, v) :: rest =>
    match toTyped e v with
    | none => .err .unableToConvert
    | some x =>
      match asMapType e rest with
      | .ok r => .ok ((k, x) :: r)
      | .err er => .err er
      | .fault => .fault

/-- Go `[]byte(s)`: the string's raw UTF-8 bytes. -/
def stringToBytes (s : String) : List UInt8 := s.toUTF8.toList

/-- `NumberErr[R]`: fetch as `any`, then coerce via `asNumberType`. -/
def NumberErr (target : NumKind) (source : List (String × Val)) (path : String) : Res Dy :=
  (GetErr .any source path).bind (asNumberType target)

/-- `IntErr`: `NumberErr[int]`. -/
def IntErr (source : List (String × Val)) (path : String) : Res Dy :=
  NumberErr .int source path

/-- `Float64Err`: `NumberErr[float64]`. -/
def Float64Err (source : List (String × Val)) (path : String) : Res Dy :=
  NumberErr .float64 source path

/-- `StrErr`: `GetErr[string]`. -/
def StrErr (source : List (String × Val)) (path : String) : Res String :=
  GetErr .str source path

/-- `BoolErr`: `GetErr[bool]`. -/
def BoolErr (source : List (String × Val)) (path : String) : Res Bool :=
  GetErr .bool source path

/-- `BytesErr`: fetch as `any`; a string yields its raw bytes, a byte slice
is returned unchanged, anything else is `ErrUnableToConvert`. -/
def BytesErr (source : List (String × Val)) (path : String) : Res (List UInt8) :=
  (GetErr .any source path).bind fun v =>
    match v with
    | .vstr s => .ok (stringToBytes s)
    | .vbytes b => .ok b
    | _ => .err .unableToConvert

/-- `SliceErr[V]`: fetch as `[]any`, then assert each element. -/
def SliceErr (e : GoType) (source : List (String × Val)) (path : String) :
    Res (List (interp e)) :=
  (GetErr .sliceAny source path).bind (asSliceType e)

/-- `MapErr[V]`: fetch as `map[string]any`, then assert each value. -/
def MapErr (e : GoType) (source : List (String × Val)) (path : String) :
    Res (List (String × interp e)) :=
  (GetErr .mapStrAny source path).bind (asMapType e)

/-- The `withoutError` composition: every error-returning function in the
package returns the zero value alongside its error, so dropping the error
yields the zero value on the error path; a runtime fault still
propagates. -/
def dropErr {α : Type} (z : α) : Res α → Res α
  | .ok v => .ok v
  | .err _ => .ok z
  | .fault => .fault

/-- `Get[T]` — `GetErr` with the error dropped. -/
def Get (t : GoType) (source : List (String × Val)) (path : String) : Res (interp t) :=
  dropErr (zeroVal t) (GetErr t source path)

/-- `Str` — `StrErr` with the error dropped. -/
def Str (source : List (String × Val)) (path : String) : Res String :=
  dropErr "" (StrErr source path)

/-- `Bool` — `BoolErr` with the error dropped (named `BoolD` as `Bool` is
taken by the Lean core type). -/
def BoolD (source : List (String × Val)) (path : String) : Res Bool :=
  dropErr false (BoolErr source path)

/-- `Bytes` — `BytesErr` with the error dropped. -/
def Bytes (source : List (String × Val)) (path : String) : Res (List UInt8) :=
  dropErr [] (BytesErr source path)

/-- `Int` — `IntErr` with the error dropped (named `IntD` as `Int` is taken
by the Lean core type). -/
def IntD (source : List (String × Val)) (path : String) : Res Dy :=
  dropErr ⟨0, 0⟩ (IntErr source path)

/-- `Float64` — `Float64Err` with the error dropped. -/
def Float64 (source : List (String × Val)) (path : String) : Res Dy :=
  dropErr ⟨0, 0⟩ (Float64Err source path)

/-- `Slice[V]` — `SliceErr` with the error dropped. -/
def Slice (e : GoType) (source : List (String × Val)) (path : String) :
    Res (List (interp e)) :=
  dropErr [] (SliceErr e source path)

/-- `Map[V]` — `MapErr` with the error dropped (named `MapD` to avoid
clashing with ambient names). -/
def MapD (e : GoType) (source : List (String × Val)) (path : String) :
    Res (List (String × interp e)) :=
  dropErr [] (MapErr e source path)

/-- `Number[R]` — `NumberErr` with the error dropped. -/
def Number (target : NumKind) (source : List (String × Val)) (path : String) : Res Dy :=
  dropErr ⟨0, 0⟩ (NumberErr target source path)

example : IntErr [("a", .vnum .float64 ⟨1, 0⟩)] "a" = .ok ⟨1, 0⟩ := rfl
example : IntErr [("a", .vnum .float64 ⟨3, -1⟩)] "a" = .err .unableToConvert := rfl
example : Float64 [("a", .vnum .float64 ⟨3, -1⟩)] "a" = .ok ⟨3, -1⟩ := rfl
example : IntErr [("a", .vstr "1")] "a" = .err .unexpectedType := rfl
example : SliceErr .bool [("a", .vslice [.vbool true, .vstr "false", .vbool true])] "a"
    = .err .unableToConvert := rfl
example : SliceErr .bool [("a", .vslice [.vbool true, .vbool false])] "a"
    = .ok [true, false] := rfl
example : MapErr .bool [("a", .vmap [("b", .vbool true)])] "a" = .ok [("b", true)] := rfl
example : BytesErr [("a", .vbool true)] "a" = .err .unableToConvert := rfl
example : Str [("a", .vnum .float64 ⟨42, 0⟩)] "a" = .ok "" := rfl

/-- Leaf nodes of the walk: every dynamic type other than `map[string]any`
and `[]any` falls into the `default` branch of the type switch. -/
def isLeaf : Val → Bool
  | .vmap _ => false
  | .vslice _ => false
  | _ => true

/-- Dynamic types `BytesErr` accepts: strings and byte slices. -/
def isBytesCompatible : Val → Bool
  | .vstr _ => true
  | .vbytes _ => true
  | _ => false

/-- C1: the claim says sequence bounds-checking compares against the
currently-indexed sequence's own length, so that `"a.0.b.c.1"` resolves to
`1` in `{"a": [{"b": {"c": [0,1,2]}}]}`.  The code instead compares the
parsed index against `len(source)`, the length of the *top-level mapping*
(here 1), so the walk fails with `IndexOutOfBounds` on the package's own
documented example; the claim's second example (`"a.1"` into
`{"a": ["x"]}`) does error as claimed, but only because the top-level map
coincidentally also has length 1. -/
theorem c1_index_bounds_checked_against_top_level_map :
    GetErr .any
        [("a", Val.vslice [Val.vmap [("b", Val.vmap [("c",
          Val.vslice [Val.vnum .float64 ⟨0, 0⟩, Val.vnum .float64 ⟨1, 0⟩,
            Val.vnum .float64 ⟨2, 0⟩])])]])]
        "a.0.b.c.1" = .err (.indexOutOfBounds 1 1)
    ∧ GetErr .any [("a", Val.vslice [Val.vstr "x"])] "a.1"
        = .err (.indexOutOfBounds 1 1) :=
  ⟨rfl, rfl⟩

/-- C2: the claim says every public operation is total and never produces a
runtime fault.  Because the bounds check compares the index against the
top-level map's length, an index that is within `[0, len(source)-1]` but
not below the current slice's length reaches `c[i]` and is an out-of-range
runtime fault: resolving `"a.1"` in `{"a": ["x"], "b": false}` (top-level
length 2, slice length 1). -/
theorem c2_out_of_range_slice_access_faults :
    GetErr .str [("a", Val.vslice [Val.vstr "x"]), ("b", Val.vbool false)] "a.1"
      = .fault :=
  rfl

/-- C10: a type assertion on the nil interface value fails for every target
type, including `any`, so a null terminal value always yields
`UnexpectedType` and is never returned successfully by any public
operation. -/
theorem c10_null_never_ok :
    (∀ t : GoType, finalAssert t Val.vnull = .err .unexpectedType)
    ∧ GetErr .any [("a", Val.vnull)] "a" = .err .unexpectedType
    ∧ NumberErr .int [("a", Val.vnull)] "a" = .err .unexpectedType
    ∧ BytesErr [("a", Val.vnull)] "a" = .err .unexpectedType
    ∧ SliceErr .bool [("a", Val.vnull)] "a" = .err .unexpectedType
    ∧ MapErr .bool [("a", Val.vnull)] "a" = .err .unexpectedType := by
  refine ⟨fun t => ?_, rfl, rfl, rfl, rfl, rfl⟩
  cases t <;> rfl

/-- C6: when the current node is a mapping, the segment is used as a
mapping key even when it parses as an integer — the walk's behaviour on a
mapping node is key lookup, independent of `goAtoi k`; in particular
`"a.2"` in `{"a": {"2": "2_val"}}` yields `"2_val"`. -/
theorem c6_mapping_key_priority :
    (∀ (t : GoType) (srcLen : ℕ) (m : List (String × Val)) (k : String)
        (rest : List String) (i depth : ℕ), (goAtoi k).isSome →
        walk t srcLen (.vmap m) (k :: rest) i depth =
          match m.lookup k with
          | none => .err (.keyNotFound k)
          | some v => if i = depth then finalAssert t v
                      else walk t srcLen v rest (i + 1) depth)
    ∧ GetErr .str [("a", Val.vmap [("2", Val.vstr "2_val")])] "a.2" = .ok "2_val" :=
  ⟨fun _ _ _ _ _ _ _ _ => rfl, rfl⟩

/-- C6 witness: instantiating the general statement at the mapping
`{"2": "2_val"}` with the integer-lexical segment `"2"`. -/
theorem c6_mapping_key_priority_witness :
    walk .str 1 (.vmap [("2", Val.vstr "2_val")]) ["2"] 0 0 = .ok "2_val" := by
  have h := c6_mapping_key_priority.1 .str 1 [("2", Val.vstr "2_val")] "2" [] 0 0
    (by decide)
  simpa using h

/-- C7: a walk that reaches a leaf (scalar or null) with the current
segment non-terminal fails with `EndOfNestedStructures` carrying that
segment; a leaf reached at the terminal segment never produces that error;
`"a.b.c"` against `{"a": "b"}` fails at segment `"b"`. -/
theorem c7_end_of_nested_structures :
    (∀ (t : GoType) (srcLen : ℕ) (v : Val) (k : String) (rest : List String)
        (i depth : ℕ), isLeaf v = true → i ≠ depth →
        walk t srcLen v (k :: rest) i depth = .err (.endOfNestedStructures k))
    ∧ (∀ (t : GoType) (srcLen : ℕ) (v : Val) (k : String) (rest : List String)
        (depth : ℕ) (s : String), isLeaf v = true →
        walk t srcLen v (k :: rest) depth depth ≠ .err (.endOfNestedStructures s))
    ∧ GetErr .str [("a", Val.vstr "b")] "a.b.c" = .err (.endOfNestedStructures "b") := by
  refine ⟨?_, ?_, rfl⟩
  · intro t srcLen v k rest i depth hleaf hne
    cases v <;> simp [isLeaf] at hleaf <;> simp [walk, hne]
  · intro t srcLen v k rest depth s hleaf
    cases v <;> simp [isLeaf] at hleaf <;>
      simp only [walk, if_pos rfl] <;>
      · unfold finalAssert
        cases h : toTyped _ _ <;> simp

/-- C7 witness: a leaf string with one segment remaining errors at that
segment; the same leaf at the terminal segment does not produce
`EndOfNestedStructures`. -/
theorem c7_end_of_nested_structures_witness :
    walk .str 1 (Val.vstr "b") ["b", "c"] 1 2 = .err (.endOfNestedStructures "b")
    ∧ walk .str 1 (Val.vstr "b") ["b"] 1 1 ≠ .err (.endOfNestedStructures "b") :=
  ⟨c7_end_of_nested_structures.1 .str 1 (Val.vstr "b") "b" ["c"] 1 2 rfl (by decide),
   c7_end_of_nested_structures.2.1 .str 1 (Val.vstr "b") "b" [] 1 "b" rfl⟩

/-- C9 counterexample: the claim says resolution of an empty segment always
fails, as a missing key when the current node is a mapping.  But the empty
string is an ordinary mapping key: resolving `"a."` in `{"a": {"": "v"}}`
succeeds with `"v"`. -/
theorem c9_empty_segment_counterexample :
    GetErr .str [("a", Val.vmap [("", Val.vstr "v")])] "a." = .ok "v" :=
  rfl

/-- C9 (amended): an empty segment fails as `KeyNotFound` when the current
node is a mapping that does not contain the empty string as a key (if it
does, the lookup succeeds with that entry), and always fails as
`NonIntegerSliceAccess` when the current node is a sequence. -/
theorem c9_empty_segment_amended :
    (∀ (t : GoType) (srcLen : ℕ) (m : List (String × Val)) (rest : List String)
        (i depth : ℕ), List.lookup "" m = none →
        walk t srcLen (.vmap m) ("" :: rest) i depth = .err (.keyNotFound ""))
    ∧ (∀ (t : GoType) (srcLen : ℕ) (l : List Val) (rest : List String)
        (i depth : ℕ),
        walk t srcLen (.vslice l) ("" :: rest) i depth
          = .err (.nonIntegerSliceAccess "")) := by
  constructor
  · intro t srcLen m rest i depth h
    simp [walk, h]
  · intro t srcLen l rest i depth
    rfl

/-- C9 witness: a mapping without an empty-string key and a sequence, each
walked with an empty segment. -/
theorem c9_empty_segment_amended_witness :
    walk .str 1 (.vmap [("x", Val.vstr "v")]) [""] 0 0 = .err (.keyNotFound "")
    ∧ walk .str 1 (.vslice [Val.vstr "v"]) [""] 0 0
        = .err (.nonIntegerSliceAccess "") :=
  ⟨c9_empty_segment_amended.1 .str 1 [("x", Val.vstr "v")] [] 0 0 rfl,
   c9_empty_segment_amended.2 .str 1 [Val.vstr "v"] [] 0 0⟩

/-- C3: on a raw value of a supported numeric dynamic kind `k`,
`NumberErr[n]` succeeds with the conversion of the value to `n` exactly
when converting back to `k` reproduces the original value, and otherwise
fails with `UnableToConvert`; `IntErr` and `Float64Err` are the `int` and
`float64` instances. -/
theorem c3_number_round_trip :
    ∀ (n k : NumKind) (d : Dy) (source : List (String × Val)) (path : String),
    GetErr .any source path = .ok (.vnum k d) →
    (NumberErr n source path = .ok (goConv n d)
        ↔ Dy.veq (goConv k (goConv n d)) d = true)
    ∧ (Dy.veq (goConv k (goConv n d)) d = false
        → NumberErr n source path = .err .unableToConvert)
    ∧ IntErr source path = NumberErr .int source path
    ∧ Float64Err source path = NumberErr .float64 source path := by
  intro n k d source path h
  have hn : NumberErr n source path = convertNumber n k d := by
    unfold NumberErr
    rw [h]
    rfl
  refine ⟨?_, ?_, rfl, rfl⟩
  · rw [hn]
    unfold convertNumber
    by_cases hv : Dy.veq (goConv k (goConv n d)) d = true <;> simp [hv]
  · intro hv
    rw [hn]
    unfold convertNumber
    simp [hv]

/-- C3 witness: `float64` value `1` requested as `int` succeeds as `1`;
`float64` value `1.5` (the dyadic `3 * 2 ^ (-1)`) requested as `int` fails
with `UnableToConvert`. -/
theorem c3_number_round_trip_witness :
    GetErr .any [("a", Val.vnum .float64 ⟨1, 0⟩)] "a" = .ok (.vnum .float64 ⟨1, 0⟩)
    ∧ NumberErr .int [("a", Val.vnum .float64 ⟨1, 0⟩)] "a" = .ok ⟨1, 0⟩
    ∧ NumberErr .int [("a", Val.vnum .float64 ⟨3, -1⟩)] "a" = .err .unableToConvert := by
  refine ⟨rfl, ?_, ?_⟩
  · have h := (c3_number_round_trip .int .float64 ⟨1, 0⟩
      [("a", Val.vnum .float64 ⟨1, 0⟩)] "a" rfl).1.mpr (by decide)
    have hg : goConv .int (⟨1, 0⟩ : Dy) = ⟨1, 0⟩ := by decide
    rw [hg] at h
    exact h
  · exact (c3_number_round_trip .int .float64 ⟨3, -1⟩
      [("a", Val.vnum .float64 ⟨3, -1⟩)] "a" rfl).2.1 (by decide)

/-- Helper: `asSliceType` succeeds with the element-wise assertions when
every element asserts to the target type. -/
theorem asSliceType_all_ok (e : GoType) (l : List Val)
    (h : ∀ v ∈ l, (toTyped e v).isSome) :
    asSliceType e l = .ok (l.filterMap (toTyped e)) := by
  induction l with
  | nil => rfl
  | cons v rest ih =>
    obtain ⟨x, hx⟩ := Option.isSome_iff_exists.mp (h v (List.mem_cons_self v rest))
    have hr := ih fun w hw => h w (List.mem_cons_of_mem v hw)
    simp [asSliceType, hx, hr, List.filterMap_cons]

/-- Helper: `asSliceType` fails with `UnableToConvert` as soon as any
element fails assertion. -/
theorem asSliceType_any_bad (e : GoType) (l : List Val)
    (h : ∃ v ∈ l, toTyped e v = none) :
    asSliceType e l = .err .unableToConvert := by
  induction l with
  | nil => simp at h
  | cons v rest ih =>
    obtain ⟨w, hw, hnone⟩ := h
    rcases List.mem_cons.mp hw with rfl | hmem
    · simp [asSliceType, hnone]
    · cases hx : toTyped e v with
      | none => simp [asSliceType, hx]
      | some x => simp [asSliceType, hx, ih ⟨w, hmem, hnone⟩]

/-- Helper: `asMapType` succeeds with the value-wise assertions when every
value asserts to the target type. -/
theorem asMapType_all_ok (e : GoType) (m : List (String × Val))
    (h : ∀ kv ∈ m, (toTyped e kv.2).isSome) :
    asMapType e m
      = .ok (m.filterMap fun kv => (toTyped e kv.2).map fun x => (kv.1, x)) := by
  induction m with
  | nil => rfl
  | cons kv rest ih =>
    obtain ⟨x, hx⟩ := Option.isSome_iff_exists.mp (h kv (List.mem_cons_self kv rest))
    have hr := ih fun w hw => h w (List.mem_cons_of_mem kv hw)
    obtain ⟨k, v⟩ := kv
    simp only at hx
    simp [asMapType, hx, hr, List.filterMap_cons]

/-- Helper: `asMapType` fails with `UnableToConvert` as soon as any value
fails assertion. -/
theorem asMapType_any_bad (e : GoType) (m : List (String × Val))
    (h : ∃ kv ∈ m, toTyped e kv.2 = none) :
    asMapType e m = .err .unableToConvert := by
  induction m with
  | nil => simp at h
  | cons kv rest ih =>
    obtain ⟨w, hw, hnone⟩ := h
    obtain ⟨k, v⟩ := kv
    rcases List.mem_cons.mp hw with rfl | hmem
    · simp only at hnone
      simp [asMapType, hnone]
    · cases hx : toTyped e v with
      | none => simp [asMapType, hx]
      | some x => simp [asMapType, hx, ih ⟨w, hmem, hnone⟩]

/-- C4: slice and map element coercion is all-or-nothing: when every
element (value) asserts to the target type the fully converted container
is returned; as soon as any single element fails assertion the whole call
fails with `UnableToConvert` and no partial container; in particular
`[true, "false", true]` requested as booleans fails. -/
theorem c4_all_or_nothing :
    (∀ (e : GoType) (l : List Val), (∀ v ∈ l, (toTyped e v).isSome) →
        asSliceType e l = .ok (l.filterMap (toTyped e)))
    ∧ (∀ (e : GoType) (l : List Val), (∃ v ∈ l, toTyped e v = none) →
        asSliceType e l = .err .unableToConvert)
    ∧ (∀ (e : GoType) (m : List (String × Val)), (∀ kv ∈ m, (toTyped e kv.2).isSome) →
        asMapType e m
          = .ok (m.filterMap fun kv => (toTyped e kv.2).map fun x => (kv.1, x)))
    ∧ (∀ (e : GoType) (m : List (String × Val)), (∃ kv ∈ m, toTyped e kv.2 = none) →
        asMapType e m = .err .unableToConvert)
    ∧ SliceErr .bool [("a", .vslice [.vbool true, .vstr "false", .vbool true])] "a"
        = .err .unableToConvert
    ∧ MapErr .bool [("a", .vmap [("b", .vbool true), ("c", .vstr "x")])] "a"
        = .err .unableToConvert :=
  ⟨asSliceType_all_ok, asSliceType_any_bad, asMapType_all_ok, asMapType_any_bad,
   rfl, rfl⟩

/-- C4 witness: a fully boolean slice converts whole; a fully boolean map
converts whole. -/
theorem c4_all_or_nothing_witness :
    asSliceType .bool [Val.vbool true, Val.vbool false] = .ok [true, false]
    ∧ asMapType .bool [("b", Val.vbool true)] = .ok [("b", true)] :=
  ⟨(c4_all_or_nothing.1 .bool [Val.vbool true, Val.vbool false]
      (by decide)).trans rfl,
   (c4_all_or_nothing.2.2.1 .bool [("b", Val.vbool true)] (by decide)).trans rfl⟩

/-- Helper: dropping the error from a successful call keeps its value. -/
theorem dropErr_ok {α : Type} (z v : α) {r : Res α} (h : r = .ok v) :
    dropErr z r = .ok v := by
  rw [h]
  rfl

/-- Helper: dropping the error from a failed call yields the zero value. -/
theorem dropErr_err {α : Type} (z : α) {er : Err} {r : Res α} (h : r = .err er) :
    dropErr z r = .ok z := by
  rw [h]
  rfl

/-- C5: for every tree, path and target, each default variant returns the
error variant's value unchanged on success, and exactly the zero/empty
value of the target type on failure — for `Get`, `Str`, `Int`, `Float64`,
`Bool`, `Bytes`, `Slice`, `Map` and `Number`. -/
theorem c5_default_variants :
    ∀ (t e : GoType) (n : NumKind) (source : List (String × Val)) (path : String),
    ((∀ v, GetErr t source path = .ok v → Get t source path = .ok v)
      ∧ (∀ er, GetErr t source path = .err er → Get t source path = .ok (zeroVal t)))
    ∧ ((∀ v, StrErr source path = .ok v → Str source path = .ok v)
      ∧ (∀ er, StrErr source path = .err er → Str source path = .ok ""))
    ∧ ((∀ v, IntErr source path = .ok v → IntD source path = .ok v)
      ∧ (∀ er, IntErr source path = .err er → IntD source path = .ok ⟨0, 0⟩))
    ∧ ((∀ v, Float64Err source path = .ok v → Float64 source path = .ok v)
      ∧ (∀ er, Float64Err source path = .err er → Float64 source path = .ok ⟨0, 0⟩))
    ∧ ((∀ v, BoolErr source path = .ok v → BoolD source path = .ok v)
      ∧ (∀ er, BoolErr source path = .err er → BoolD source path = .ok false))
    ∧ ((∀ v, BytesErr source path = .ok v → Bytes source path = .ok v)
      ∧ (∀ er, BytesErr source path = .err er → Bytes source path = .ok []))
    ∧ ((∀ v, SliceErr e source path = .ok v → Slice e source path = .ok v)
      ∧ (∀ er, SliceErr e source path = .err er → Slice e source path = .ok []))
    ∧ ((∀ v, MapErr e source path = .ok v → MapD e source path = .ok v)
      ∧ (∀ er, MapErr e source path = .err er → MapD e source path = .ok []))
    ∧ ((∀ v, NumberErr n source path = .ok v → Number n source path = .ok v)
      ∧ (∀ er, NumberErr n source path = .err er → Number n source path = .ok ⟨0, 0⟩)) :=
  fun _ _ _ _ _ =>
    ⟨⟨fun v h => dropErr_ok _ v h, fun _ h => dropErr_err _ h⟩,
     ⟨fun v h => dropErr_ok _ v h, fun _ h => dropErr_err _ h⟩,
     ⟨fun v h => dropErr_ok _ v h, fun _ h => dropErr_err _ h⟩,
     ⟨fun v h => dropErr_ok _ v h, fun _ h => dropErr_err _ h⟩,
     ⟨fun v h => dropErr_ok _ v h, fun _ h => dropErr_err _ h⟩,
     ⟨fun v h => dropErr_ok _ v h, fun _ h => dropErr_err _ h⟩,
     ⟨fun v h => dropErr_ok _ v h, fun _ h => dropErr_err _ h⟩,
     ⟨fun v h => dropErr_ok _ v h, fun _ h => dropErr_err _ h⟩,
     ⟨fun v h => dropErr_ok _ v h, fun _ h => dropErr_err _ h⟩⟩

/-- C5 witness: a successful string fetch is passed through by `Str`; a
missing key makes `Str` return the empty string. -/
theorem c5_default_variants_witness :
    StrErr [("a", Val.vstr "x")] "a" = .ok "x"
    ∧ Str [("a", Val.vstr "x")] "a" = .ok "x"
    ∧ StrErr [("a", Val.vstr "x")] "b" = .err (.keyNotFound "b")
    ∧ Str [("a", Val.vstr "x")] "b" = .ok "" :=
  ⟨rfl,
   ((c5_default_variants .str .bool .int [("a", Val.vstr "x")] "a").2.1).1 "x" rfl,
   rfl,
   ((c5_default_variants .str .bool .int [("a", Val.vstr "x")] "b").2.1).2
     (.keyNotFound "b") rfl⟩

/-- C8: when resolution succeeds with raw value `v`, `BytesErr` returns a
byte slice unchanged, returns a string's raw bytes, and fails with
`UnableToConvert` on every other dynamic type. -/
theorem c8_bytes_coercion :
    ∀ (source : List (String × Val)) (path : String) (v : Val),
    GetErr .any source path = .ok v →
    (∀ b, v = .vbytes b → BytesErr source path = .ok b)
    ∧ (∀ s, v = .vstr s → BytesErr source path = .ok (stringToBytes s))
    ∧ (isBytesCompatible v = false → BytesErr source path = .err .unableToConvert) := by
  intro source path v h
  refine ⟨?_, ?_, ?_⟩
  · rintro b rfl
    unfold BytesErr
    rw [h]
    rfl
  · rintro s rfl
    unfold BytesErr
    rw [h]
    rfl
  · intro hv
    unfold BytesErr
    rw [h]
    cases v <;> simp [isBytesCompatible] at hv ⊢ <;> rfl

/-- C8 witness: a boolean raw value is rejected with `UnableToConvert`; a
byte-slice raw value is returned unchanged. -/
theorem c8_bytes_coercion_witness :
    BytesErr [("a", Val.vbool true)] "a" = .err .unableToConvert
    ∧ BytesErr [("a", Val.vbytes [65])] "a" = .ok [65] :=
  ⟨(c8_bytes_coercion [("a", Val.vbool true)] "a" (Val.vbool true) rfl).2.2 rfl,
   (c8_bytes_coercion [("a", Val.vbytes [65])] "a" (Val.vbytes [65]) rfl).1 [65] rfl⟩
